import Mathlib

/-!
Shallow embedding of `src/frontend-web/src-tauri/src/lib.rs`, the single
source file of the repository: the Tauri application bootstrapper `run()`.

The bootstrapper is modelled as a pure function from an environment — the
outcomes the external framework calls would produce on this start — to the
ordered trace of bootstrap events together with the process outcome.
-/

namespace SoulSense

/-- Log levels of `log::LevelFilter` (the source uses `Info`). -/
inductive LogLevel where
  | off
  | err
  | warn
  | info
  | dbg
  | trc
  deriving DecidableEq, Repr

/-- The `sentry::ClientOptions` fields set by the source: only `release`. -/
structure SentryOptions where
  release : Option String
  deriving DecidableEq, Repr

/-- The hard-coded DSN string of line 4 of `lib.rs`. -/
def sentryDsn : String := "https://your-sentry-dsn@sentry.io/project-id"

/-- Modelled from the spec: `sentry::release_name!()` expands at compile time
to a present release identifier (the Cargo manifest carrying its exact text is
not part of the given source, so the text is a stand-in; its presence is what
the spec states). -/
def releaseName : Option String := some "soul_sense_exam@0.1.0"

/-- The logical sidecar name of line 34 of `lib.rs`. -/
def sidecarName : String := "soul-sense-backend"

/-- The deep-link scheme of line 24 of `lib.rs`. -/
def deepLinkScheme : String := "soulsense"

/-- Observable bootstrap events, in the order `run()` performs them. The child
operations at the end are never emitted by the source; they are in the type so
that their absence is expressible. -/
inductive Event where
  | sentryInit (dsn : String) (opts : SentryOptions)
  | pluginShell
  | pluginUpdater
  | pluginDeepLinkSetup
  | pluginLog (level : LogLevel)
  | registerDeepLink (scheme : String)
  | resolveSidecar (name : String)
  | spawnSidecar (name : String)
  | enterRunLoop
  | childWait
  | childKill
  | childWrite (msg : String)
  | childRead
  deriving DecidableEq, Repr

/-- Outcomes the external framework calls would produce on this start. -/
structure Env where
  /-- value of `cfg!(debug_assertions)` for this build -/
  debugAssertions : Bool
  /-- whether the sentry backend comes up (a failed backend yields a disabled
  client, `sentry::init` still returns a guard) -/
  sentryHealthy : Bool
  /-- result of `app.handle().plugin(tauri_plugin_log ...)` -/
  logPlugin : Except String Unit
  /-- result of `tauri_plugin_deep_link::register("soulsense", ...)` -/
  deepLinkRegister : Except String Unit
  /-- result of `app.handle().plugin(<registered deep-link plugin>)` -/
  deepLinkPlugin : Except String Unit
  /-- logical names of the executables bundled with the application -/
  bundled : List String
  /-- result of `sidecar_command.spawn()`: on success the pair (rx, child) -/
  spawnResult : Except String (Nat × Nat)
  /-- result of the host run loop once entered -/
  runLoop : Except String Unit
  deriving Repr

/-- How the setup closure of lines 13-40 ends: normally, with a propagated
error (the `?` operator), or with a panic (`unwrap` / `expect`). -/
inductive SetupResult where
  | ok
  | err (e : String)
  | panicked (msg : String)
  deriving DecidableEq, Repr

/-- Process outcome: a normal exit (code 0) or a panic-abort (non-zero exit,
diagnostic message on stderr). -/
inductive Outcome where
  | exited
  | panicked (msg : String)
  deriving DecidableEq, Repr

/-- Modelled from the spec: the host framework resolves a bundled executable
by logical name; when the executable is missing from the bundle the resolution
fails with an error naming the program (tauri-plugin-shell's unknown-program
error). -/
def shellSidecar (bundled : List String) (name : String) : Except String Unit :=
  if name ∈ bundled then Except.ok () else Except.error ("unknown program " ++ name)

/-- Diagnostic produced by Rust's `Result::unwrap` on an error value. -/
def unwrapMsg (e : String) : String :=
  "called Result::unwrap() on an Err value: " ++ e

/-- Diagnostic produced by the `expect` on line 37 of `lib.rs`. -/
def spawnExpectMsg (e : String) : String :=
  "Failed to spawn sidecar: " ++ e

/-- Diagnostic produced by the `expect` on line 42 of `lib.rs`. -/
def runExpectMsg (e : String) : String :=
  "error while running tauri application: " ++ e

/-- A setup-closure error is wrapped by the host into a structured setup
failure before `run` returns it. -/
def setupErrWrap (e : String) : String :=
  "Setup(" ++ e ++ ")"

/-- The setup closure of lines 13-40: conditional log plugin, deep-link
registration, sidecar resolution and spawn. Returns the events it performs and
how it ends. -/
def setupEvents (env : Env) : List Event × SetupResult :=
  let logEvs : List Event :=
    if env.debugAssertions then [Event.pluginLog LogLevel.info] else []
  let logRes : Except String Unit :=
    if env.debugAssertions then env.logPlugin else Except.ok ()
  match logRes with
  | Except.error e => (logEvs, SetupResult.err e)
  | Except.ok _ =>
    let evs := logEvs ++ [Event.registerDeepLink deepLinkScheme]
    match env.deepLinkRegister with
    | Except.error e => (evs, SetupResult.err e)
    | Except.ok _ =>
      match env.deepLinkPlugin with
      | Except.error e => (evs, SetupResult.err e)
      | Except.ok _ =>
        let evs := evs ++ [Event.resolveSidecar sidecarName]
        match shellSidecar env.bundled sidecarName with
        | Except.error e => (evs, SetupResult.panicked (unwrapMsg e))
        | Except.ok _ =>
          let evs := evs ++ [Event.spawnSidecar sidecarName]
          match env.spawnResult with
          | Except.error e => (evs, SetupResult.panicked (spawnExpectMsg e))
          | Except.ok _ => (evs, SetupResult.ok)

/-- The bootstrapper, parameterised over the two optional capabilities the
spec describes (crash reporting and auto-update); the source of `lib.rs` is
the variant with both present. Emits the event trace and the process
outcome. -/
def runVariant (withCrashReporting withUpdater : Bool) (env : Env) :
    List Event × Outcome :=
  let pre : List Event :=
    (if withCrashReporting then
      [Event.sentryInit sentryDsn ⟨releaseName⟩] else [])
    ++ [Event.pluginShell]
    ++ (if withUpdater then [Event.pluginUpdater] else [])
    ++ [Event.pluginDeepLinkSetup]
  match setupEvents env with
  | (evs, SetupResult.panicked m) => (pre ++ evs, Outcome.panicked m)
  | (evs, SetupResult.err e) =>
      (pre ++ evs, Outcome.panicked (runExpectMsg (setupErrWrap e)))
  | (evs, SetupResult.ok) =>
    let evs := pre ++ evs ++ [Event.enterRunLoop]
    match env.runLoop with
    | Except.error e => (evs, Outcome.panicked (runExpectMsg e))
    | Except.ok _ => (evs, Outcome.exited)

/-- The entry point `run()` of `lib.rs`: the variant with crash reporting and
auto-update present. -/
def run (env : Env) : List Event × Outcome :=
  runVariant true true env

/-- Result of one invocation of the deep-link handler closure of lines
25-29: the lines it prints and the events it emits to the frontend. -/
structure HandlerResult where
  printed : List String
  uiEvents : List String
  deriving DecidableEq, Repr

/-- The deep-link handler closure of lines 25-29: prints the request, emits
nothing to the frontend, returns no response. -/
def deepLinkHandler (request : String) : HandlerResult :=
  ⟨["Deep link received: " ++ request], []⟩

/-- Host-side state relevant to deep-link delivery. -/
structure AppState where
  handlerRegistered : Bool
  sidecarStarted : Bool
  deriving DecidableEq, Repr

/-- Modelled from the spec: the host delivers an incoming link to the
registered callback whenever one is registered; delivery consults nothing
else (in particular not the sidecar's state). -/
def deliverDeepLink (s : AppState) (request : String) : Option HandlerResult :=
  if s.handlerRegistered then some (deepLinkHandler request) else none

/-- Event classifiers used by the theorems. -/
def isLogEv : Event → Bool
  | Event.pluginLog _ => true
  | _ => false

def isRegisterEv : Event → Bool
  | Event.registerDeepLink _ => true
  | _ => false

def isResolveEv : Event → Bool
  | Event.resolveSidecar _ => true
  | _ => false

def isSpawnEv : Event → Bool
  | Event.spawnSidecar _ => true
  | _ => false

def isChildOpEv : Event → Bool
  | Event.childWait => true
  | Event.childKill => true
  | Event.childWrite _ => true
  | Event.childRead => true
  | _ => false

def isLateKeyEv (e : Event) : Bool :=
  isRegisterEv e || isResolveEv e || isSpawnEv e

def isKeyEv (e : Event) : Bool :=
  isLogEv e || isLateKeyEv e

/-- String append is associative (by reduction to list append). -/
theorem strAppendAssoc (a b c : String) : a ++ b ++ c = a ++ (b ++ c) := by
  apply String.ext
  simp [String.data_append, List.append_assoc]

/-- A diagnostic names the sidecar when it contains the sidecar's logical
name or the word "sidecar". -/
def namesSidecar (m : String) : Prop :=
  (∃ a b, m = a ++ (sidecarName ++ b)) ∨ (∃ a b, m = a ++ ("sidecar" ++ b))

/-- An environment in which every external call succeeds. -/
def envAllOk : Env :=
  ⟨true, true, Except.ok (), Except.ok (), Except.ok (), [sidecarName],
    Except.ok (7, 9), Except.ok ()⟩

/-- The all-success environment with the sidecar missing from the bundle. -/
def envNoSidecar : Env :=
  ⟨true, true, Except.ok (), Except.ok (), Except.ok (), [],
    Except.ok (7, 9), Except.ok ()⟩

/-- The all-success environment with a failing run loop. -/
def envRunErr : Env :=
  ⟨true, true, Except.ok (), Except.ok (), Except.ok (), [sidecarName],
    Except.ok (7, 9), Except.error "event loop failure"⟩

/-- The all-success environment with a failing log-plugin registration. -/
def envLogErr : Env :=
  ⟨true, true, Except.error "log plugin rejected", Except.ok (), Except.ok (),
    [sidecarName], Except.ok (7, 9), Except.ok ()⟩

/-- C10: on every start the error-reporting integration is initialized first,
with the hard-coded placeholder DSN, independently of the environment. -/
theorem sentry_dsn_hardcoded (env : Env) :
    (run env).1.head? =
      some (Event.sentryInit "https://your-sentry-dsn@sentry.io/project-id"
        ⟨releaseName⟩) := by
  obtain ⟨dbg, sh, lp, reg, plug, bund, sp, rl⟩ := env
  by_cases hb : sidecarName ∈ bund <;>
    cases dbg <;> cases lp <;> cases reg <;> cases plug <;> cases sp <;>
      cases rl <;>
    simp [run, runVariant, setupEvents, shellSidecar, sentryDsn, hb]

/-- C9: once the deep-link handler is registered, an incoming request fires
the callback irrespective of whether the sidecar has started. -/
theorem deep_link_fires_regardless_of_sidecar (b : Bool) (req : String) :
    deliverDeepLink ⟨true, b⟩ req = some (deepLinkHandler req) := by
  simp [deliverDeepLink]

/-- C8: the run of the bootstrapper does not depend on whether the sentry
backend comes up; the integration is configured with a release identifier and
the rest of the bootstrap (the shell plugin onward) still runs. -/
theorem sentry_best_effort (dbg b1 b2 : Bool) (lp reg plug : Except String Unit)
    (bund : List String) (sp : Except String (Nat × Nat))
    (rl : Except String Unit) :
    run ⟨dbg, b1, lp, reg, plug, bund, sp, rl⟩ =
      run ⟨dbg, b2, lp, reg, plug, bund, sp, rl⟩ ∧
    (run ⟨dbg, b1, lp, reg, plug, bund, sp, rl⟩).1.head? =
      some (Event.sentryInit sentryDsn ⟨releaseName⟩) ∧
    Event.pluginShell ∈ (run ⟨dbg, b1, lp, reg, plug, bund, sp, rl⟩).1.tail ∧
    releaseName.isSome = true := by
  refine ⟨rfl, ?_, ?_, rfl⟩ <;>
    by_cases hb : sidecarName ∈ bund <;>
      cases dbg <;> cases lp <;> cases reg <;> cases plug <;> cases sp <;>
        cases rl <;>
      simp [run, runVariant, setupEvents, shellSidecar, hb]

/-- C6: the values returned by the spawn are discarded — the trace never
contains a wait, kill, write or read on the child, and the child is spawned
at most once (no restart). -/
theorem spawned_child_untouched (env : Env) :
    (run env).1.filter isChildOpEv = [] ∧
    ((run env).1.filter isSpawnEv).length ≤ 1 := by
  obtain ⟨dbg, sh, lp, reg, plug, bund, sp, rl⟩ := env
  by_cases hb : sidecarName ∈ bund <;>
    cases dbg <;> cases lp <;> cases reg <;> cases plug <;> cases sp <;>
      cases rl <;>
    simp [run, runVariant, setupEvents, shellSidecar, hb, isChildOpEv,
      isSpawnEv]

/-- C3: the log plugin is registered (once, at the informational level)
exactly in debug configurations, and every log registration precedes every
deep-link-registration, sidecar-resolution and sidecar-spawn event of the
trace. -/
theorem logging_debug_only (env : Env) :
    ((run env).1.filter isLogEv =
      if env.debugAssertions then [Event.pluginLog LogLevel.info] else []) ∧
    (run env).1.filter isKeyEv =
      (run env).1.filter isLogEv ++ (run env).1.filter isLateKeyEv := by
  obtain ⟨dbg, sh, lp, reg, plug, bund, sp, rl⟩ := env
  by_cases hb : sidecarName ∈ bund <;>
    cases dbg <;> cases lp <;> cases reg <;> cases plug <;> cases sp <;>
      cases rl <;>
    simp [run, runVariant, setupEvents, shellSidecar, hb, isLogEv, isKeyEv,
      isLateKeyEv, isRegisterEv, isResolveEv, isSpawnEv]

/-- C1: on the success path the sidecar is resolved once and spawned once,
in every variant (with or without crash reporting and auto-update). -/
theorem sidecar_spawn_attempted_once (wcr wupd : Bool) (env : Env)
    (hlog : env.debugAssertions = false ∨ env.logPlugin = Except.ok ())
    (hreg : env.deepLinkRegister = Except.ok ())
    (hplug : env.deepLinkPlugin = Except.ok ())
    (hres : sidecarName ∈ env.bundled) :
    ((runVariant wcr wupd env).1.filter isResolveEv).length = 1 ∧
    ((runVariant wcr wupd env).1.filter isSpawnEv).length = 1 := by
  obtain ⟨dbg, sh, lp, reg, plug, bund, sp, rl⟩ := env
  rcases hlog with h | h <;>
    cases dbg <;> cases wcr <;> cases wupd <;> cases sp <;> cases rl <;>
      simp_all [runVariant, setupEvents, shellSidecar, isResolveEv, isSpawnEv]

/-- Witness for C1: a concrete success-path start of the minimal variant. -/
theorem sidecar_spawn_attempted_once_witness :
    ((runVariant false false envAllOk).1.filter isResolveEv).length = 1 ∧
    ((runVariant false false envAllOk).1.filter isSpawnEv).length = 1 :=
  sidecar_spawn_attempted_once false false envAllOk (Or.inr rfl) rfl rfl
    (by decide)

/-- The run when the sidecar is missing from the bundle: no run loop, panic
with the unwrap diagnostic. -/
theorem run_resolve_fail (env : Env)
    (hlog : env.debugAssertions = false ∨ env.logPlugin = Except.ok ())
    (hreg : env.deepLinkRegister = Except.ok ())
    (hplug : env.deepLinkPlugin = Except.ok ())
    (hnb : sidecarName ∉ env.bundled) :
    Event.enterRunLoop ∉ (run env).1 ∧
    (run env).2 =
      Outcome.panicked (unwrapMsg ("unknown program " ++ sidecarName)) := by
  obtain ⟨dbg, sh, lp, reg, plug, bund, sp, rl⟩ := env
  rcases hlog with h | h <;>
    cases dbg <;>
      simp_all [run, runVariant, setupEvents, shellSidecar]

/-- The run when the sidecar resolves but its spawn fails: no run loop, panic
with the expect diagnostic. -/
theorem run_spawn_fail (env : Env)
    (hlog : env.debugAssertions = false ∨ env.logPlugin = Except.ok ())
    (hreg : env.deepLinkRegister = Except.ok ())
    (hplug : env.deepLinkPlugin = Except.ok ())
    (hmem : sidecarName ∈ env.bundled) (e : String)
    (he : env.spawnResult = Except.error e) :
    Event.enterRunLoop ∉ (run env).1 ∧
    (run env).2 = Outcome.panicked (spawnExpectMsg e) := by
  obtain ⟨dbg, sh, lp, reg, plug, bund, sp, rl⟩ := env
  rcases hlog with h | h <;>
    cases dbg <;>
      simp_all [run, runVariant, setupEvents, shellSidecar]

/-- The unwrap diagnostic for a missing bundled executable names the
sidecar. -/
theorem namesSidecar_unwrap :
    namesSidecar (unwrapMsg ("unknown program " ++ sidecarName)) :=
  Or.inl ⟨"called Result::unwrap() on an Err value: unknown program ", "",
    by decide⟩

/-- The spawn-failure diagnostic names the sidecar. -/
theorem namesSidecar_spawn (e : String) : namesSidecar (spawnExpectMsg e) := by
  right
  refine ⟨"Failed to spawn ", ": " ++ e, ?_⟩
  rw [← strAppendAssoc, ← strAppendAssoc]
  have h2 : ("Failed to spawn " ++ "sidecar" ++ ": " : String) =
      "Failed to spawn sidecar: " := by decide
  rw [h2]
  rfl

/-- C2: a failed sidecar resolution or spawn terminates the start before the
run loop is entered, with a non-zero (panicked) outcome whose diagnostic
names the sidecar. -/
theorem sidecar_failure_fatal (env : Env)
    (hlog : env.debugAssertions = false ∨ env.logPlugin = Except.ok ())
    (hreg : env.deepLinkRegister = Except.ok ())
    (hplug : env.deepLinkPlugin = Except.ok ())
    (hfail : sidecarName ∉ env.bundled ∨
      ∃ e, env.spawnResult = Except.error e) :
    Event.enterRunLoop ∉ (run env).1 ∧
    (run env).2 ≠ Outcome.exited ∧
    ∃ m, (run env).2 = Outcome.panicked m ∧ namesSidecar m := by
  rcases hfail with hnb | ⟨e, he⟩
  · obtain ⟨h1, h2⟩ := run_resolve_fail env hlog hreg hplug hnb
    exact ⟨h1, by simp [h2], _, h2, namesSidecar_unwrap⟩
  · by_cases hm : sidecarName ∈ env.bundled
    · obtain ⟨h1, h2⟩ := run_spawn_fail env hlog hreg hplug hm e he
      exact ⟨h1, by simp [h2], _, h2, namesSidecar_spawn e⟩
    · obtain ⟨h1, h2⟩ := run_resolve_fail env hlog hreg hplug hm
      exact ⟨h1, by simp [h2], _, h2, namesSidecar_unwrap⟩

/-- Witness for C2: a concrete start with the sidecar missing from the
bundle. -/
theorem sidecar_failure_fatal_witness :
    Event.enterRunLoop ∉ (run envNoSidecar).1 ∧
    (run envNoSidecar).2 ≠ Outcome.exited ∧
    ∃ m, (run envNoSidecar).2 = Outcome.panicked m ∧ namesSidecar m :=
  sidecar_failure_fatal envNoSidecar (Or.inr rfl) rfl rfl
    (Or.inl (by decide))

/-- C4: a failed plugin registration inside the setup closure (conditional
log plugin, or deep-link registration) makes the closure return that error,
which surfaces as a structured setup failure: the run loop is never entered
and the process aborts with the wrapped diagnostic. -/
theorem setup_error_propagates (env : Env) (e : String)
    (h : (env.debugAssertions = true ∧ env.logPlugin = Except.error e) ∨
      ((env.debugAssertions = false ∨ env.logPlugin = Except.ok ()) ∧
        (env.deepLinkRegister = Except.error e ∨
          (env.deepLinkRegister = Except.ok () ∧
            env.deepLinkPlugin = Except.error e)))) :
    (setupEvents env).2 = SetupResult.err e ∧
    Event.enterRunLoop ∉ (run env).1 ∧
    (run env).2 = Outcome.panicked (runExpectMsg (setupErrWrap e)) := by
  obtain ⟨dbg, sh, lp, reg, plug, bund, sp, rl⟩ := env
  rcases h with ⟨hd, hl⟩ | ⟨hl', hr | ⟨hr, hp⟩⟩
  · simp_all [run, runVariant, setupEvents]
  · rcases hl' with h | h <;> cases dbg <;>
      simp_all [run, runVariant, setupEvents]
  · rcases hl' with h | h <;> cases dbg <;>
      simp_all [run, runVariant, setupEvents]

/-- Witness for C4: a concrete debug start whose log-plugin registration is
rejected. -/
theorem setup_error_propagates_witness :
    (setupEvents envLogErr).2 = SetupResult.err "log plugin rejected" ∧
    Event.enterRunLoop ∉ (run envLogErr).1 ∧
    (run envLogErr).2 =
      Outcome.panicked (runExpectMsg (setupErrWrap "log plugin rejected")) :=
  setup_error_propagates envLogErr "log plugin rejected" (Or.inl ⟨rfl, rfl⟩)

/-- C5: when the setup closure succeeds the run loop is entered, and the
process outcome is a normal exit when the run loop returns cleanly and a
panic with the run diagnostic when it returns an error. -/
theorem run_loop_entered (env : Env)
    (hsetup : (setupEvents env).2 = SetupResult.ok) :
    Event.enterRunLoop ∈ (run env).1 ∧
    (run env).2 = (match env.runLoop with
      | Except.error e => Outcome.panicked (runExpectMsg e)
      | Except.ok _ => Outcome.exited) := by
  obtain ⟨dbg, sh, lp, reg, plug, bund, sp, rl⟩ := env
  by_cases hb : sidecarName ∈ bund <;>
    cases dbg <;> cases lp <;> cases reg <;> cases plug <;> cases sp <;>
      cases rl <;>
    simp_all [run, runVariant, setupEvents, shellSidecar]

/-- Witness for C5: a concrete start whose setup succeeds and whose run loop
then fails. -/
theorem run_loop_entered_witness :
    Event.enterRunLoop ∈ (run envRunErr).1 ∧
    (run envRunErr).2 = Outcome.panicked (runExpectMsg "event loop failure") :=
  run_loop_entered envRunErr (by decide)

/-- C7: whenever the setup closure reaches the deep-link step, exactly one
handler registration occurs, bound to the scheme "soulsense"; the handler
itself only prints the request and emits nothing to the frontend. -/
theorem deep_link_single_registration (env : Env) (req : String)
    (hlog : env.debugAssertions = false ∨ env.logPlugin = Except.ok ()) :
    (run env).1.filter isRegisterEv = [Event.registerDeepLink "soulsense"] ∧
    (deepLinkHandler req).printed = ["Deep link received: " ++ req] ∧
    (deepLinkHandler req).uiEvents = [] := by
  refine ⟨?_, rfl, rfl⟩
  obtain ⟨dbg, sh, lp, reg, plug, bund, sp, rl⟩ := env
  rcases hlog with h | h <;>
    by_cases hb : sidecarName ∈ bund <;>
      cases dbg <;> cases lp <;> cases reg <;> cases plug <;> cases sp <;>
        cases rl <;>
      simp_all [run, runVariant, setupEvents, shellSidecar, isRegisterEv,
        deepLinkScheme]

/-- Witness for C7: a concrete all-success start and a concrete request. -/
theorem deep_link_single_registration_witness :
    (run envAllOk).1.filter isRegisterEv =
      [Event.registerDeepLink "soulsense"] ∧
    (deepLinkHandler "soulsense://auth?code=1").printed =
      ["Deep link received: " ++ "soulsense://auth?code=1"] ∧
    (deepLinkHandler "soulsense://auth?code=1").uiEvents = [] :=
  deep_link_single_registration envAllOk "soulsense://auth?code=1"
    (Or.inr rfl)

end SoulSense
